import Mathlib

/-!
Shallow embedding of the Excel quick-fill-color add-in command handlers
(`src/commands.js`, and the multi-area variant in `src/unnamed/part_000`).

The handlers run against a remote object model: property mutations are
queued on a request context and applied to the sheet only when
`context.sync()` (a flush round trip) succeeds.  We model one handler
invocation as a computation in an exception/state monad that also emits a
trace of observable events: mutation-statement attempts, flush round
trips, console output, notification-channel calls, and calls to the
command event's completion signal.

Error injection: a `Scenario` says which host operations raise (setting a
fill color, invoking `clear()`, setting the fill pattern, and each
successive `context.sync()` call), mirroring the spec's ApplyError /
FlushError classification.  Everything else (the current selection, the
availability of the dialog API, the shape of the event object) is also
part of the scenario or the event argument.
-/

/-- A spreadsheet cell position. -/
structure Cell where
  row : Nat
  col : Nat
deriving DecidableEq, Repr

/-- A cell's fill state: a color (opaque hex string) or no fill. -/
inductive Fill where
  | color (c : String)
  | noFill
deriving DecidableEq, Repr

/-- A rectangular region of cells (inclusive bounds). -/
structure Region where
  top : Nat
  left : Nat
  bottom : Nat
  right : Nat
deriving DecidableEq, Repr

/-- Whether a region contains a cell. -/
def Region.containsCell (r : Region) (cell : Cell) : Bool :=
  decide (r.top ≤ cell.row) && decide (cell.row ≤ r.bottom) &&
  decide (r.left ≤ cell.col) && decide (cell.col ≤ r.right)

/-- Whether any region of a selection contains the cell. -/
def inSelection (sel : List Region) (cell : Cell) : Bool :=
  sel.any (fun r => r.containsCell cell)

/-- A queued (not yet flushed) property mutation on a range handle.
The handle is the list of regions it denotes. -/
inductive Mut where
  | setColor (sel : List Region) (c : String)
  | clearFill (sel : List Region)
  | setPatternNone (sel : List Region)
deriving DecidableEq, Repr

/-- Apply one queued mutation to the sheet. -/
def applyMut (m : Mut) (sheet : Cell → Fill) : Cell → Fill :=
  match m with
  | Mut.setColor sel c => fun cell => if inSelection sel cell then Fill.color c else sheet cell
  | Mut.clearFill sel => fun cell => if inSelection sel cell then Fill.noFill else sheet cell
  | Mut.setPatternNone sel => fun cell => if inSelection sel cell then Fill.noFill else sheet cell

/-- Apply a batch of queued mutations in queue order. -/
def applyMuts (ms : List Mut) (sheet : Cell → Fill) : Cell → Fill :=
  ms.foldl (fun sh m => applyMut m sh) sheet

/-- Observable events of one handler invocation, in order. -/
inductive Ev where
  /-- the statement `range.format.fill.color = c` was executed -/
  | mutSetColor (c : String)
  /-- the statement `range.format.fill.clear()` was executed -/
  | mutClear
  /-- the statement `range.format.fill.pattern = Excel.FillPattern.none` was executed -/
  | mutSetPatternNone
  /-- a `context.sync()` flush round trip was issued -/
  | flush
  /-- a `console.log` line -/
  | consoleLog (s : String)
  /-- a `console.error` line -/
  | consoleError (s : String)
  /-- the notification side channel (`showNotification`) was invoked -/
  | notify (header message : String)
  /-- a dialog was displayed (`displayDialogAsync`); never emitted by this code -/
  | dialog (header message : String)
  /-- `event.completed()` was called -/
  | completedCall
deriving DecidableEq, Repr

/-- Is this event a mutation statement? -/
def Ev.isMutation : Ev → Bool
  | Ev.mutSetColor _ => true
  | Ev.mutClear => true
  | Ev.mutSetPatternNone => true
  | _ => false

/-- Is this event a flush round trip? -/
def Ev.isFlush : Ev → Bool
  | Ev.flush => true
  | _ => false

/-- Is this event a completion-signal call? -/
def Ev.isCompleted : Ev → Bool
  | Ev.completedCall => true
  | _ => false

/-- Is this event a notification-channel call? -/
def Ev.isNotify : Ev → Bool
  | Ev.notify _ _ => true
  | _ => false

/-- Is this event a dialog display? -/
def Ev.isDialog : Ev → Bool
  | Ev.dialog _ _ => true
  | _ => false

/-- Is this event the primary clear attempt (`fill.clear()`)? -/
def Ev.isClearAttempt : Ev → Bool
  | Ev.mutClear => true
  | _ => false

/-- Is this event the fallback pattern-based clear attempt? -/
def Ev.isFallbackAttempt : Ev → Bool
  | Ev.mutSetPatternNone => true
  | _ => false

/-- Number of completion-signal calls in a trace. -/
def countCompleted (tr : List Ev) : Nat := (tr.filter Ev.isCompleted).length

/-- Number of mutation statements in a trace. -/
def countMutations (tr : List Ev) : Nat := (tr.filter Ev.isMutation).length

/-- Number of flush round trips in a trace. -/
def countFlushes (tr : List Ev) : Nat := (tr.filter Ev.isFlush).length

/-- Number of fallback pattern-clear attempts in a trace. -/
def countFallbacks (tr : List Ev) : Nat := (tr.filter Ev.isFallbackAttempt).length

/-- After any fallback pattern-clear attempt, no further clear or fallback
attempt occurs (no retry after the fallback). -/
def noRetryAfterFallback : List Ev → Bool
  | [] => true
  | e :: rest =>
    if Ev.isFallbackAttempt e then
      rest.all (fun x => !Ev.isClearAttempt x && !Ev.isFallbackAttempt x)
    else noRetryAfterFallback rest

/-- The `Office.AddinCommands.Event` argument as the handlers observe it:
whether `event` itself is truthy, and whether `event.completed` is truthy. -/
structure OfficeEvent where
  present : Bool
  hasCompleted : Bool
deriving DecidableEq, Repr

/-- An event argument that is null/undefined. -/
def nullEvent : OfficeEvent := { present := false, hasCompleted := false }

/-- A well-formed event carrying a completion callback. -/
def goodEvent : OfficeEvent := { present := true, hasCompleted := true }

/-- Host-side error injection and environment for one invocation.
`flushErrs` gives, per successive `context.sync()` call, the error that
sync raises (`none` = the flush succeeds); indices past the end succeed. -/
structure Scenario where
  /-- the regions of the current selection -/
  selection : List Region
  /-- error raised while executing `range.format.fill.color = c` (spec: ApplyError) -/
  applyColorErr : Option String
  /-- error raised while executing `range.format.fill.clear()` (spec: ApplyError) -/
  clearErr : Option String
  /-- error raised while executing `range.format.fill.pattern = ...none` -/
  patternErr : Option String
  /-- error raised by the k-th `context.sync()` call (spec: FlushError) -/
  flushErrs : List (Option String)
  /-- `Office.context.ui && Office.context.ui.displayDialogAsync` is truthy -/
  dialogAvailable : Bool

/-- Mutable world of one invocation: the sheet, the request context's
queue of unflushed mutations, and how many sync calls have been issued. -/
structure St where
  sheet : Cell → Fill
  pending : List Mut
  flushIdx : Nat

/-- The handler monad: exceptions (JS `throw` of an `Error` with a string
message), state, and an emitted event trace. -/
def M (α : Type) : Type := St → Except String α × St × List Ev

/-- Monadic return. -/
def M.pure {α : Type} (a : α) : M α := fun s => (Except.ok a, s, [])

/-- Monadic bind; an exception short-circuits but keeps the trace so far. -/
def M.bind {α β : Type} (x : M α) (f : α → M β) : M β := fun s =>
  match x s with
  | (Except.ok a, s1, t1) =>
    match f a s1 with
    | (r, s2, t2) => (r, s2, t1 ++ t2)
  | (Except.error e, s1, t1) => (Except.error e, s1, t1)

/-- JS `try { body } catch (e) { handler e }`. -/
def jsCatch {α : Type} (body : M α) (handler : String → M α) : M α := fun s =>
  match body s with
  | (Except.ok a, s1, t1) => (Except.ok a, s1, t1)
  | (Except.error e, s1, t1) =>
    match handler e s1 with
    | (r, s2, t2) => (r, s2, t1 ++ t2)

/-- JS `try { body } finally { fin }`: `fin` always runs; if it succeeds the
body's outcome (value or exception) is kept. -/
def jsFinally {α : Type} (body : M α) (fin : M Unit) : M Unit := fun s =>
  match body s with
  | (r, s1, t1) =>
    match fin s1 with
    | (Except.ok _, s2, t2) =>
      (match r with
       | Except.ok _ => (Except.ok (), s2, t1 ++ t2)
       | Except.error e => (Except.error e, s2, t1 ++ t2))
    | (Except.error e, s2, t2) => (Except.error e, s2, t1 ++ t2)

/-- Raise a JS error with the given message. -/
def throwErr {α : Type} (m : String) : M α := fun s => (Except.error m, s, [])

/-- Emit one trace event. -/
def emit (e : Ev) : M Unit := fun s => (Except.ok (), s, [e])

/-- `console.log(s)`. -/
def consoleLog (s : String) : M Unit := emit (Ev.consoleLog s)

/-- `console.error(s, err)` rendered as one line. -/
def consoleError (s : String) : M Unit := emit (Ev.consoleError s)

/-- `Excel.run(async ctx => body)`: the batch function runs on a fresh
request context (empty mutation queue); an error in the body rejects the
returned promise, which `await` re-raises at the call site. -/
def excelRun {α : Type} (body : M α) : M α := fun s =>
  body { s with pending := [] }

/-- `context.workbook.getSelectedRange()` / `getSelectedRanges()`: a handle
to the current selection.  Reading the selection queues no mutation and
raises nothing. -/
def getSelectedRange (sc : Scenario) : M (List Region) := M.pure sc.selection

/-- `range.load(...)`: queues a property load; no observable effect in this
model. -/
def loadProps : M Unit := M.pure ()

/-- `range.format.fill.color = c`: the statement executes (traced), then
either raises the scenario's ApplyError or queues the mutation. -/
def setFillColor (sc : Scenario) (sel : List Region) (c : String) : M Unit :=
  M.bind (emit (Ev.mutSetColor c)) (fun _ =>
    match sc.applyColorErr with
    | some m => throwErr m
    | none => fun s => (Except.ok (), { s with pending := s.pending ++ [Mut.setColor sel c] }, []))

/-- `range.format.fill.clear()`: the statement executes (traced), then
either raises or queues the clear. -/
def clearFillOp (sc : Scenario) (sel : List Region) : M Unit :=
  M.bind (emit Ev.mutClear) (fun _ =>
    match sc.clearErr with
    | some m => throwErr m
    | none => fun s => (Except.ok (), { s with pending := s.pending ++ [Mut.clearFill sel] }, []))

/-- `range.format.fill.pattern = Excel.FillPattern.none`: the statement
executes (traced), then either raises or queues the pattern clear. -/
def setPatternNone (sc : Scenario) (sel : List Region) : M Unit :=
  M.bind (emit Ev.mutSetPatternNone) (fun _ =>
    match sc.patternErr with
    | some m => throwErr m
    | none => fun s => (Except.ok (), { s with pending := s.pending ++ [Mut.setPatternNone sel] }, []))

/-- The error injected into the i-th flush; `none` past the end of the
list (that flush succeeds). -/
def flushErrAt (l : List (Option String)) (i : Nat) : Option String :=
  match l, i with
  | [], _ => none
  | e :: _, 0 => e
  | _ :: rest, n + 1 => flushErrAt rest n

/-- `await context.sync()`: one flush round trip.  On success the queued
mutations are applied to the sheet as a batch; on failure none of them
are applied.  Either way the queue is consumed and the sync counter
advances. -/
def sync (sc : Scenario) : M Unit := fun s =>
  match flushErrAt sc.flushErrs s.flushIdx with
  | some m =>
    (Except.error m,
     { s with pending := [], flushIdx := s.flushIdx + 1 }, [Ev.flush])
  | none =>
    (Except.ok (),
     { sheet := applyMuts s.pending s.sheet, pending := [], flushIdx := s.flushIdx + 1 },
     [Ev.flush])

/-- `if (event && event.completed) { event.completed(); }` — the guarded
completion call in every handler's `finally` block. -/
def completeEvent (ev : OfficeEvent) : M Unit := fun s =>
  (Except.ok (), s, if ev.present && ev.hasCompleted then [Ev.completedCall] else [])

/-- `showNotification(header, message)` (src/commands.js lines 144-149 and
the identical copy in part_000): only when
`Office.context.ui && Office.context.ui.displayDialogAsync` is truthy does
it emit `console.log(header + ": " + message)`; it never opens a dialog. -/
def showNotification (dialogAvailable : Bool) (header message : String) : List Ev :=
  if dialogAvailable then [Ev.consoleLog (header ++ ": " ++ message)] else []

/-- A handler's call into the notification side channel: the channel call
itself is observable (`Ev.notify`), and `showNotification`'s own output
follows. -/
def callShowNotification (sc : Scenario) (header message : String) : M Unit := fun s =>
  (Except.ok (), s, Ev.notify header message :: showNotification sc.dialogAvailable header message)

/-- Initial world: a given sheet, empty mutation queue, no syncs yet. -/
def initSt (sheet : Cell → Fill) : St :=
  { sheet := sheet, pending := [], flushIdx := 0 }

/-- An all-no-fill sheet, for concrete evaluations. -/
def emptySheet : Cell → Fill := fun _ => Fill.noFill

namespace Commands

/-- The `COLORS` constant of src/commands.js. -/
structure ColorPalette where
  YELLOW : String
  ORANGE : String
  GRAY : String

/-- src/commands.js lines 13-17. -/
def COLORS : ColorPalette :=
  { YELLOW := "#FFFF00", ORANGE := "#FFA500", GRAY := "#D3D3D3" }

/-- The body of the `Excel.run` batch in `fillCellsWithColor`
(src/commands.js lines 26-40): get the selected range, load its address,
set the fill color, sync, log success. -/
def fillBody (sc : Scenario) (color : String) : M Unit :=
  M.bind (getSelectedRange sc) (fun range =>
  M.bind loadProps (fun _ =>
  M.bind (setFillColor sc range color) (fun _ =>
  M.bind (sync sc) (fun _ =>
  consoleLog ("Successfully filled cells with color: " ++ color)))))

/-- The `catch` block of `fillCellsWithColor` (src/commands.js lines
41-47): log the error; if `error && error.message` is truthy, forward the
message to the notification channel. -/
def fillCatch (sc : Scenario) (err : String) : M Unit :=
  M.bind (consoleError ("Error filling cells: " ++ err)) (fun _ =>
    if err = "" then M.pure ()
    else callShowNotification sc "Error" ("Failed to fill cells: " ++ err))

/-- `fillCellsWithColor(color, event)` (src/commands.js lines 24-54):
try the batched fill, catch any error, and always complete the event in
the `finally` block. -/
def fillCellsWithColor (sc : Scenario) (color : String) (ev : OfficeEvent) : M Unit :=
  jsFinally
    (jsCatch (excelRun (fillBody sc color)) (fillCatch sc))
    (completeEvent ev)

/-- The body of the primary `Excel.run` batch in `clearCellsFill`
(src/commands.js lines 62-81): get the selected range, load address and
fill color, sync to load, invoke `fill.clear()`, sync again, log. -/
def clearBody (sc : Scenario) : M Unit :=
  M.bind (getSelectedRange sc) (fun range =>
  M.bind loadProps (fun _ =>
  M.bind loadProps (fun _ =>
  M.bind (sync sc) (fun _ =>
  M.bind (clearFillOp sc range) (fun _ =>
  M.bind (sync sc) (fun _ =>
  consoleLog "Successfully cleared cell fill"))))))

/-- The body of the fallback `Excel.run` batch (src/commands.js lines
88-94): get the selected range, set the fill pattern to none, sync, log. -/
def fallbackBody (sc : Scenario) : M Unit :=
  M.bind (getSelectedRange sc) (fun range =>
  M.bind (setPatternNone sc range) (fun _ =>
  M.bind (sync sc) (fun _ =>
  consoleLog "Cleared fill using pattern method")))

/-- The `catch` block of `clearCellsFill` (src/commands.js lines 82-98):
log the primary error, try the fallback pattern-based clear; if that also
fails, log the fallback error and forward the primary error's message to
the notification channel. -/
def clearCatch (sc : Scenario) (err : String) : M Unit :=
  M.bind (consoleError ("Error clearing fill: " ++ err)) (fun _ =>
    jsCatch (excelRun (fallbackBody sc))
      (fun fallbackErr =>
        M.bind (consoleError ("Fallback method also failed: " ++ fallbackErr)) (fun _ =>
          callShowNotification sc "Error" ("Failed to clear fill: " ++ err))))

/-- `clearCellsFill(event)` (src/commands.js lines 60-105): try the
primary clear, on error run the fallback, and always complete the event
in the `finally` block. -/
def clearCellsFill (sc : Scenario) (ev : OfficeEvent) : M Unit :=
  jsFinally
    (jsCatch (excelRun (clearBody sc)) (clearCatch sc))
    (completeEvent ev)

/-- `fillYellow(event)` (src/commands.js lines 111-113). -/
def fillYellow (sc : Scenario) (ev : OfficeEvent) : M Unit :=
  fillCellsWithColor sc COLORS.YELLOW ev

/-- `fillOrange(event)` (src/commands.js lines 119-121). -/
def fillOrange (sc : Scenario) (ev : OfficeEvent) : M Unit :=
  fillCellsWithColor sc COLORS.ORANGE ev

/-- `fillGray(event)` (src/commands.js lines 127-129). -/
def fillGray (sc : Scenario) (ev : OfficeEvent) : M Unit :=
  fillCellsWithColor sc COLORS.GRAY ev

/-- `clearFill(event)` (src/commands.js lines 135-137). -/
def clearFill (sc : Scenario) (ev : OfficeEvent) : M Unit :=
  clearCellsFill sc ev

end Commands

namespace MultiArea

/-- The `COLORS` constant of src/unnamed/part_000 (lines 13-17); only the
gray value differs from src/commands.js. -/
def COLORS : Commands.ColorPalette :=
  { YELLOW := "#FFFF00", ORANGE := "#FFA500", GRAY := "#A9A9A9" }

/-- The loop `for (let i = 0; i < areas.items.length; i++)
areas.items[i].format.fill.color = color;` (part_000 lines 42-44):
set the fill color on each area of the selection in order. -/
def setColorEach (sc : Scenario) (areas : List Region) (color : String) : M Unit :=
  match areas with
  | [] => M.pure ()
  | r :: rest => M.bind (setFillColor sc [r] color) (fun _ => setColorEach sc rest color)

/-- The body of the `Excel.run` batch in part_000's `fillCellsWithColor`
(lines 26-50): get all selected ranges, load the areas, sync, load the
items, sync, set the color on each area, sync, log. -/
def fillBody (sc : Scenario) (color : String) : M Unit :=
  M.bind (getSelectedRange sc) (fun areas =>
  M.bind loadProps (fun _ =>
  M.bind (sync sc) (fun _ =>
  M.bind loadProps (fun _ =>
  M.bind (sync sc) (fun _ =>
  M.bind (setColorEach sc areas color) (fun _ =>
  M.bind (sync sc) (fun _ =>
  consoleLog ("Successfully filled " ++ toString areas.length ++ " range(s) with color: " ++ color))))))))

/-- part_000's `fillCellsWithColor(color, event)` (lines 24-64): same
catch/finally shape as src/commands.js, with the per-area body. -/
def fillCellsWithColor (sc : Scenario) (color : String) (ev : OfficeEvent) : M Unit :=
  jsFinally
    (jsCatch (excelRun (fillBody sc color)) (Commands.fillCatch sc))
    (completeEvent ev)

end MultiArea

/-! ### Structural lemmas about the monad and the handler shape -/

/-- A computation that can only end in `Except.ok ()`. -/
def okUnit (x : M Unit) : Prop := ∀ s, (x s).1 = Except.ok ()

/-- A computation whose every emitted event satisfies `p`. -/
def emitsOnly {α : Type} (p : Ev → Bool) (x : M α) : Prop :=
  ∀ s, ((x s).2.2).all p = true

theorem jsFinally_completeEvent (body : M Unit) (ev : OfficeEvent) (s : St) :
    jsFinally body (completeEvent ev) s =
      ((body s).1, (body s).2.1,
        (body s).2.2 ++ (if ev.present && ev.hasCompleted then [Ev.completedCall] else [])) := by
  unfold jsFinally completeEvent
  rcases h : body s with ⟨r, s1, t1⟩
  cases r <;> simp [h]

theorem okUnit_jsCatch (body : M Unit) (handler : String → M Unit)
    (hh : ∀ e, okUnit (handler e)) : okUnit (jsCatch body handler) := by
  intro s
  unfold jsCatch
  rcases h : body s with ⟨r, s1, t1⟩
  cases r with
  | ok a => simp [h]
  | error e =>
    have := hh e s1
    rcases h2 : handler e s1 with ⟨r2, s2, t2⟩
    rw [h2] at this
    simp at this
    simp [h, h2, this]

theorem okUnit_bind (x : M Unit) (f : Unit → M Unit)
    (hx : okUnit x) (hf : ∀ a, okUnit (f a)) : okUnit (M.bind x f) := by
  intro s
  unfold M.bind
  rcases h : x s with ⟨r, s1, t1⟩
  cases r with
  | ok a =>
    have := hf a s1
    rcases h2 : f a s1 with ⟨r2, s2, t2⟩
    rw [h2] at this
    simp at this
    simp [h, h2, this]
  | error e =>
    have := hx s
    rw [h] at this
    simp at this

theorem okUnit_fillCatch (sc : Scenario) (e : String) : okUnit (Commands.fillCatch sc e) := by
  intro s
  unfold Commands.fillCatch
  by_cases he : e = "" <;>
    simp [M.bind, consoleError, emit, he, M.pure, callShowNotification]

theorem okUnit_clearCatch (sc : Scenario) (e : String) : okUnit (Commands.clearCatch sc e) := by
  intro s
  unfold Commands.clearCatch
  have hin : ∀ fe, okUnit
      (M.bind (consoleError ("Fallback method also failed: " ++ fe)) (fun _ =>
        callShowNotification sc "Error" ("Failed to clear fill: " ++ e))) := by
    intro fe
    apply okUnit_bind
    · intro s1; simp [consoleError, emit]
    · intro a s1; simp [callShowNotification]
  have hcatch : okUnit (jsCatch (excelRun (Commands.fallbackBody sc))
      (fun fallbackErr =>
        M.bind (consoleError ("Fallback method also failed: " ++ fallbackErr)) (fun _ =>
          callShowNotification sc "Error" ("Failed to clear fill: " ++ e)))) :=
    okUnit_jsCatch _ _ (fun fe => hin fe)
  have := okUnit_bind (consoleError ("Error clearing fill: " ++ e)) _
    (by intro s1; simp [consoleError, emit]) (fun _ => hcatch)
  exact this s

/-! ### Characterization of the fill body per scenario case -/

theorem fillBody_apply_err (sc : Scenario) (color : String) (s : St) (m : String)
    (hA : sc.applyColorErr = some m) :
    Commands.fillBody sc color s = (Except.error m, s, [Ev.mutSetColor color]) := by
  simp [Commands.fillBody, M.bind, getSelectedRange, loadProps, M.pure, setFillColor,
    emit, throwErr, hA]

theorem fillBody_flush_err (sc : Scenario) (color : String) (s : St) (m : String)
    (hA : sc.applyColorErr = none) (hF : flushErrAt sc.flushErrs s.flushIdx = some m) :
    Commands.fillBody sc color s =
      (Except.error m, { s with pending := [], flushIdx := s.flushIdx + 1 },
        [Ev.mutSetColor color, Ev.flush]) := by
  simp [Commands.fillBody, M.bind, getSelectedRange, loadProps, M.pure, setFillColor,
    emit, throwErr, sync, hA, hF]

theorem fillBody_ok (sc : Scenario) (color : String) (s : St)
    (hA : sc.applyColorErr = none) (hF : flushErrAt sc.flushErrs s.flushIdx = none) :
    Commands.fillBody sc color s =
      (Except.ok (),
        { sheet := applyMuts (s.pending ++ [Mut.setColor sc.selection color]) s.sheet,
          pending := [], flushIdx := s.flushIdx + 1 },
        [Ev.mutSetColor color, Ev.flush,
          Ev.consoleLog ("Successfully filled cells with color: " ++ color)]) := by
  simp [Commands.fillBody, M.bind, getSelectedRange, loadProps, M.pure, setFillColor,
    emit, throwErr, sync, consoleLog, hA, hF]

/-! ### Characterization of the clear body, fallback body and catch blocks -/

theorem clearBody_flush0_err (sc : Scenario) (s : St) (m : String)
    (hF0 : flushErrAt sc.flushErrs s.flushIdx = some m) :
    Commands.clearBody sc s =
      (Except.error m, { s with pending := [], flushIdx := s.flushIdx + 1 }, [Ev.flush]) := by
  simp [Commands.clearBody, M.bind, getSelectedRange, loadProps, M.pure, sync, hF0]

theorem clearBody_clear_err (sc : Scenario) (s : St) (m : String)
    (hF0 : flushErrAt sc.flushErrs s.flushIdx = none) (hC : sc.clearErr = some m) :
    Commands.clearBody sc s =
      (Except.error m,
        { sheet := applyMuts s.pending s.sheet, pending := [], flushIdx := s.flushIdx + 1 },
        [Ev.flush, Ev.mutClear]) := by
  simp [Commands.clearBody, M.bind, getSelectedRange, loadProps, M.pure, sync,
    clearFillOp, emit, throwErr, hF0, hC]

theorem clearBody_flush1_err (sc : Scenario) (s : St) (m : String)
    (hF0 : flushErrAt sc.flushErrs s.flushIdx = none) (hC : sc.clearErr = none)
    (hF1 : flushErrAt sc.flushErrs (s.flushIdx + 1) = some m) :
    Commands.clearBody sc s =
      (Except.error m,
        { sheet := applyMuts s.pending s.sheet, pending := [], flushIdx := s.flushIdx + 2 },
        [Ev.flush, Ev.mutClear, Ev.flush]) := by
  simp [Commands.clearBody, M.bind, getSelectedRange, loadProps, M.pure, sync,
    clearFillOp, emit, throwErr, hF0, hC, hF1]

theorem clearBody_ok (sc : Scenario) (s : St)
    (hF0 : flushErrAt sc.flushErrs s.flushIdx = none) (hC : sc.clearErr = none)
    (hF1 : flushErrAt sc.flushErrs (s.flushIdx + 1) = none) :
    Commands.clearBody sc s =
      (Except.ok (),
        { sheet := applyMuts [Mut.clearFill sc.selection] (applyMuts s.pending s.sheet),
          pending := [], flushIdx := s.flushIdx + 2 },
        [Ev.flush, Ev.mutClear, Ev.flush, Ev.consoleLog "Successfully cleared cell fill"]) := by
  simp [Commands.clearBody, M.bind, getSelectedRange, loadProps, M.pure, sync,
    clearFillOp, emit, throwErr, consoleLog, hF0, hC, hF1]

theorem fallbackBody_pattern_err (sc : Scenario) (s : St) (m : String)
    (hP : sc.patternErr = some m) :
    Commands.fallbackBody sc s = (Except.error m, s, [Ev.mutSetPatternNone]) := by
  simp [Commands.fallbackBody, M.bind, getSelectedRange, M.pure, setPatternNone,
    emit, throwErr, hP]

theorem fallbackBody_flush_err (sc : Scenario) (s : St) (m : String)
    (hP : sc.patternErr = none) (hF : flushErrAt sc.flushErrs s.flushIdx = some m) :
    Commands.fallbackBody sc s =
      (Except.error m, { s with pending := [], flushIdx := s.flushIdx + 1 },
        [Ev.mutSetPatternNone, Ev.flush]) := by
  simp [Commands.fallbackBody, M.bind, getSelectedRange, M.pure, setPatternNone,
    emit, throwErr, sync, hP, hF]

theorem fallbackBody_ok (sc : Scenario) (s : St)
    (hP : sc.patternErr = none) (hF : flushErrAt sc.flushErrs s.flushIdx = none) :
    Commands.fallbackBody sc s =
      (Except.ok (),
        { sheet := applyMuts (s.pending ++ [Mut.setPatternNone sc.selection]) s.sheet,
          pending := [], flushIdx := s.flushIdx + 1 },
        [Ev.mutSetPatternNone, Ev.flush,
          Ev.consoleLog "Cleared fill using pattern method"]) := by
  simp [Commands.fallbackBody, M.bind, getSelectedRange, M.pure, setPatternNone,
    emit, throwErr, sync, consoleLog, hP, hF]

theorem fillCatch_empty (sc : Scenario) (s : St) :
    Commands.fillCatch sc "" s =
      (Except.ok (), s, [Ev.consoleError "Error filling cells: "]) := by
  simp [Commands.fillCatch, M.bind, consoleError, emit, M.pure]

theorem fillCatch_nonempty (sc : Scenario) (e : String) (s : St) (he : e ≠ "") :
    Commands.fillCatch sc e s =
      (Except.ok (), s,
        Ev.consoleError ("Error filling cells: " ++ e) ::
        Ev.notify "Error" ("Failed to fill cells: " ++ e) ::
        showNotification sc.dialogAvailable "Error" ("Failed to fill cells: " ++ e)) := by
  simp [Commands.fillCatch, M.bind, consoleError, emit, M.pure, callShowNotification, he]

theorem clearCatch_fb_ok (sc : Scenario) (e : String) (s s2 : St) (t2 : List Ev)
    (hFB : Commands.fallbackBody sc { s with pending := [] } = (Except.ok (), s2, t2)) :
    Commands.clearCatch sc e s =
      (Except.ok (), s2, Ev.consoleError ("Error clearing fill: " ++ e) :: t2) := by
  simp [Commands.clearCatch, M.bind, consoleError, emit, jsCatch, excelRun, hFB]

theorem clearCatch_fb_err (sc : Scenario) (e fm : String) (s s2 : St) (t2 : List Ev)
    (hFB : Commands.fallbackBody sc { s with pending := [] } = (Except.error fm, s2, t2)) :
    Commands.clearCatch sc e s =
      (Except.ok (), s2,
        Ev.consoleError ("Error clearing fill: " ++ e) ::
          (t2 ++ Ev.consoleError ("Fallback method also failed: " ++ fm) ::
            Ev.notify "Error" ("Failed to clear fill: " ++ e) ::
            showNotification sc.dialogAvailable "Error" ("Failed to clear fill: " ++ e))) := by
  simp [Commands.clearCatch, M.bind, consoleError, emit, jsCatch, excelRun, hFB,
    callShowNotification]

/-! ### The multi-area fill loop (part_000) -/

theorem setColorEach_ok (sc : Scenario) (color : String) (hA : sc.applyColorErr = none) :
    ∀ (areas : List Region) (s : St),
      MultiArea.setColorEach sc areas color s =
        (Except.ok (),
          { s with pending := s.pending ++ areas.map (fun r => Mut.setColor [r] color) },
          areas.map (fun _ => Ev.mutSetColor color)) := by
  intro areas
  induction areas with
  | nil => intro s; simp [MultiArea.setColorEach, M.pure]
  | cons r rest ih =>
    intro s
    simp [MultiArea.setColorEach, M.bind, setFillColor, emit, hA, ih]

theorem applyMuts_cons (m : Mut) (ms : List Mut) (sheet : Cell → Fill) :
    applyMuts (m :: ms) sheet = applyMuts ms (applyMut m sheet) := rfl

theorem applyMuts_setColor_not_mem (color : String) (areas : List Region)
    (sheet : Cell → Fill) (cell : Cell) (h : inSelection areas cell = false) :
    applyMuts (areas.map (fun r => Mut.setColor [r] color)) sheet cell = sheet cell := by
  induction areas generalizing sheet with
  | nil => simp [applyMuts]
  | cons r rest ih =>
    rw [inSelection, List.any_cons] at h
    simp only [Bool.or_eq_false_iff] at h
    have h1 : r.containsCell cell = false := h.1
    have h2 : inSelection rest cell = false := h.2
    rw [List.map_cons, applyMuts_cons, ih _ h2]
    simp [applyMut, inSelection, h1]

theorem applyMuts_setColor_mem (color : String) (areas : List Region)
    (sheet : Cell → Fill) (cell : Cell) (h : inSelection areas cell = true) :
    applyMuts (areas.map (fun r => Mut.setColor [r] color)) sheet cell =
      Fill.color color := by
  induction areas generalizing sheet with
  | nil => simp [inSelection] at h
  | cons r rest ih =>
    rw [List.map_cons, applyMuts_cons]
    by_cases hrest : inSelection rest cell = true
    · exact ih _ hrest
    · have hrest' : inSelection rest cell = false := by
        cases hx : inSelection rest cell
        · rfl
        · exact absurd hx hrest
      have h1 : r.containsCell cell = true := by
        rw [inSelection, List.any_cons] at h
        rcases Bool.or_eq_true_iff.mp h with hx | hx
        · exact hx
        · exact absurd hx (by rw [inSelection] at hrest'; simp [hrest'])
      rw [applyMuts_setColor_not_mem color rest _ cell hrest']
      simp [applyMut, inSelection, h1]

theorem multiFillBody_ok (sc : Scenario) (color : String) (s : St)
    (hA : sc.applyColorErr = none)
    (hF0 : flushErrAt sc.flushErrs s.flushIdx = none)
    (hF1 : flushErrAt sc.flushErrs (s.flushIdx + 1) = none)
    (hF2 : flushErrAt sc.flushErrs (s.flushIdx + 2) = none) :
    MultiArea.fillBody sc color s =
      (Except.ok (),
        { sheet := applyMuts (sc.selection.map (fun r => Mut.setColor [r] color))
            (applyMuts s.pending s.sheet),
          pending := [], flushIdx := s.flushIdx + 3 },
        Ev.flush :: Ev.flush :: (sc.selection.map (fun _ => Ev.mutSetColor color) ++
          [Ev.flush, Ev.consoleLog ("Successfully filled " ++ toString sc.selection.length ++
            " range(s) with color: " ++ color)])) := by
  simp [MultiArea.fillBody, M.bind, getSelectedRange, loadProps, M.pure, sync,
    consoleLog, emit, hA, hF0, hF1, hF2, setColorEach_ok sc color hA, applyMuts]

/-! ### No completion event is emitted outside the finally block -/

/-- Events other than the completion-signal call. -/
def notCompleted (e : Ev) : Bool := !Ev.isCompleted e

theorem emitsOnly_pure {α : Type} (p : Ev → Bool) (a : α) : emitsOnly p (M.pure a) := by
  intro s; simp [M.pure]

theorem emitsOnly_bind {α β : Type} (p : Ev → Bool) (x : M α) (f : α → M β)
    (hx : emitsOnly p x) (hf : ∀ a, emitsOnly p (f a)) : emitsOnly p (M.bind x f) := by
  intro s
  unfold M.bind
  have hxs := hx s
  rcases h : x s with ⟨r, s1, t1⟩
  rw [h] at hxs
  cases r with
  | ok a =>
    have hfs := hf a s1
    rcases h2 : f a s1 with ⟨r2, s2, t2⟩
    rw [h2] at hfs
    simp_all
  | error e => simp_all

theorem emitsOnly_jsCatch {α : Type} (p : Ev → Bool) (body : M α) (handler : String → M α)
    (hb : emitsOnly p body) (hh : ∀ e, emitsOnly p (handler e)) :
    emitsOnly p (jsCatch body handler) := by
  intro s
  unfold jsCatch
  have hbs := hb s
  rcases h : body s with ⟨r, s1, t1⟩
  rw [h] at hbs
  cases r with
  | ok a => simp_all
  | error e =>
    have hhs := hh e s1
    rcases h2 : handler e s1 with ⟨r2, s2, t2⟩
    rw [h2] at hhs
    simp_all

theorem emitsOnly_excelRun {α : Type} (p : Ev → Bool) (body : M α)
    (hb : emitsOnly p body) : emitsOnly p (excelRun body) := by
  intro s
  unfold excelRun
  exact hb _

theorem emitsOnly_setFillColor (p : Ev → Bool) (sc : Scenario) (sel : List Region)
    (c : String) (h : p (Ev.mutSetColor c) = true) : emitsOnly p (setFillColor sc sel c) := by
  intro s
  cases hA : sc.applyColorErr <;> simp [setFillColor, M.bind, emit, throwErr, hA, h]

theorem emitsOnly_clearFillOp (p : Ev → Bool) (sc : Scenario) (sel : List Region)
    (h : p Ev.mutClear = true) : emitsOnly p (clearFillOp sc sel) := by
  intro s
  cases hC : sc.clearErr <;> simp [clearFillOp, M.bind, emit, throwErr, hC, h]

theorem emitsOnly_setPatternNone (p : Ev → Bool) (sc : Scenario) (sel : List Region)
    (h : p Ev.mutSetPatternNone = true) : emitsOnly p (setPatternNone sc sel) := by
  intro s
  cases hP : sc.patternErr <;> simp [setPatternNone, M.bind, emit, throwErr, hP, h]

theorem emitsOnly_sync (p : Ev → Bool) (sc : Scenario) (h : p Ev.flush = true) :
    emitsOnly p (sync sc) := by
  intro s
  cases hF : flushErrAt sc.flushErrs s.flushIdx <;> simp [sync, hF, h]

theorem emitsOnly_consoleLog (p : Ev → Bool) (msg : String)
    (h : p (Ev.consoleLog msg) = true) : emitsOnly p (consoleLog msg) := by
  intro s; simp [consoleLog, emit, h]

theorem emitsOnly_consoleError (p : Ev → Bool) (msg : String)
    (h : p (Ev.consoleError msg) = true) : emitsOnly p (consoleError msg) := by
  intro s; simp [consoleError, emit, h]

theorem emitsOnly_callShowNotification (p : Ev → Bool) (sc : Scenario) (hd msg : String)
    (h1 : p (Ev.notify hd msg) = true) (h2 : p (Ev.consoleLog (hd ++ ": " ++ msg)) = true) :
    emitsOnly p (callShowNotification sc hd msg) := by
  intro s
  cases hD : sc.dialogAvailable <;>
    simp [callShowNotification, showNotification, hD, h1, h2]

theorem emitsOnly_fillBody (sc : Scenario) (color : String) :
    emitsOnly notCompleted (Commands.fillBody sc color) := by
  unfold Commands.fillBody
  apply emitsOnly_bind _ _ _ (emitsOnly_pure _ _)
  intro range
  apply emitsOnly_bind _ _ _ (emitsOnly_pure _ _)
  intro a
  apply emitsOnly_bind _ _ _ (emitsOnly_setFillColor _ _ _ _ rfl)
  intro b
  apply emitsOnly_bind _ _ _ (emitsOnly_sync _ _ rfl)
  intro c
  exact emitsOnly_consoleLog _ _ rfl

theorem emitsOnly_fillCatch (sc : Scenario) (e : String) :
    emitsOnly notCompleted (Commands.fillCatch sc e) := by
  unfold Commands.fillCatch
  apply emitsOnly_bind _ _ _ (emitsOnly_consoleError _ _ rfl)
  intro a
  by_cases he : e = ""
  · simp only [he]
    simp
    exact emitsOnly_pure _ _
  · simp only [he]
    simp [he]
    exact emitsOnly_callShowNotification _ _ _ _ rfl rfl

theorem emitsOnly_clearBody (sc : Scenario) :
    emitsOnly notCompleted (Commands.clearBody sc) := by
  unfold Commands.clearBody
  apply emitsOnly_bind _ _ _ (emitsOnly_pure _ _)
  intro range
  apply emitsOnly_bind _ _ _ (emitsOnly_pure _ _)
  intro a
  apply emitsOnly_bind _ _ _ (emitsOnly_pure _ _)
  intro b
  apply emitsOnly_bind _ _ _ (emitsOnly_sync _ _ rfl)
  intro c
  apply emitsOnly_bind _ _ _ (emitsOnly_clearFillOp _ _ _ rfl)
  intro d
  apply emitsOnly_bind _ _ _ (emitsOnly_sync _ _ rfl)
  intro e
  exact emitsOnly_consoleLog _ _ rfl

theorem emitsOnly_fallbackBody (sc : Scenario) :
    emitsOnly notCompleted (Commands.fallbackBody sc) := by
  unfold Commands.fallbackBody
  apply emitsOnly_bind _ _ _ (emitsOnly_pure _ _)
  intro range
  apply emitsOnly_bind _ _ _ (emitsOnly_setPatternNone _ _ _ rfl)
  intro a
  apply emitsOnly_bind _ _ _ (emitsOnly_sync _ _ rfl)
  intro b
  exact emitsOnly_consoleLog _ _ rfl

theorem emitsOnly_clearCatch (sc : Scenario) (e : String) :
    emitsOnly notCompleted (Commands.clearCatch sc e) := by
  unfold Commands.clearCatch
  apply emitsOnly_bind _ _ _ (emitsOnly_consoleError _ _ rfl)
  intro a
  apply emitsOnly_jsCatch _ _ _ (emitsOnly_excelRun _ _ (emitsOnly_fallbackBody sc))
  intro fe
  apply emitsOnly_bind _ _ _ (emitsOnly_consoleError _ _ rfl)
  intro b
  exact emitsOnly_callShowNotification _ _ _ _ rfl rfl

theorem emitsOnly_setColorEach (sc : Scenario) (areas : List Region) (color : String) :
    emitsOnly notCompleted (MultiArea.setColorEach sc areas color) := by
  induction areas with
  | nil => exact emitsOnly_pure _ _
  | cons r rest ih =>
    unfold MultiArea.setColorEach
    apply emitsOnly_bind _ _ _ (emitsOnly_setFillColor _ _ _ _ rfl)
    intro a
    exact ih

theorem emitsOnly_multiFillBody (sc : Scenario) (color : String) :
    emitsOnly notCompleted (MultiArea.fillBody sc color) := by
  unfold MultiArea.fillBody
  apply emitsOnly_bind _ _ _ (emitsOnly_pure _ _)
  intro areas
  apply emitsOnly_bind _ _ _ (emitsOnly_pure _ _)
  intro a
  apply emitsOnly_bind _ _ _ (emitsOnly_sync _ _ rfl)
  intro b
  apply emitsOnly_bind _ _ _ (emitsOnly_pure _ _)
  intro c
  apply emitsOnly_bind _ _ _ (emitsOnly_sync _ _ rfl)
  intro d
  apply emitsOnly_bind _ _ _ (emitsOnly_setColorEach _ _ _)
  intro e
  apply emitsOnly_bind _ _ _ (emitsOnly_sync _ _ rfl)
  intro f
  exact emitsOnly_consoleLog _ _ rfl

/-! ### Handler-shape lemmas -/

theorem countCompleted_append (a b : List Ev) :
    countCompleted (a ++ b) = countCompleted a + countCompleted b := by
  simp [countCompleted, List.filter_append]

theorem countCompleted_eq_zero_of_all (tr : List Ev) (h : tr.all notCompleted = true) :
    countCompleted tr = 0 := by
  unfold countCompleted
  rw [List.length_eq_zero, List.filter_eq_nil_iff]
  intro a ha
  have := List.all_eq_true.mp h a ha
  simp [notCompleted] at this
  simp [this]

theorem emitsOnly_fillHandlerBody (sc : Scenario) (color : String) :
    emitsOnly notCompleted
      (jsCatch (excelRun (Commands.fillBody sc color)) (Commands.fillCatch sc)) :=
  emitsOnly_jsCatch _ _ _ (emitsOnly_excelRun _ _ (emitsOnly_fillBody sc color))
    (fun e => emitsOnly_fillCatch sc e)

theorem emitsOnly_clearHandlerBody (sc : Scenario) :
    emitsOnly notCompleted
      (jsCatch (excelRun (Commands.clearBody sc)) (Commands.clearCatch sc)) :=
  emitsOnly_jsCatch _ _ _ (emitsOnly_excelRun _ _ (emitsOnly_clearBody sc))
    (fun e => emitsOnly_clearCatch sc e)

theorem emitsOnly_multiFillHandlerBody (sc : Scenario) (color : String) :
    emitsOnly notCompleted
      (jsCatch (excelRun (MultiArea.fillBody sc color)) (Commands.fillCatch sc)) :=
  emitsOnly_jsCatch _ _ _ (emitsOnly_excelRun _ _ (emitsOnly_multiFillBody sc color))
    (fun e => emitsOnly_fillCatch sc e)

theorem countCompleted_handler (body : M Unit) (hb : emitsOnly notCompleted body)
    (ev : OfficeEvent) (hp : ev.present = true) (hc : ev.hasCompleted = true) (s : St) :
    countCompleted ((jsFinally body (completeEvent ev)) s).2.2 = 1 := by
  rw [jsFinally_completeEvent, hp, hc]
  simp only [Bool.and_self, if_true]
  rw [countCompleted_append, countCompleted_eq_zero_of_all _ (hb s)]
  simp [countCompleted, Ev.isCompleted]

theorem countCompleted_handler_ite (body : M Unit) (hb : emitsOnly notCompleted body)
    (ev : OfficeEvent) (s : St) :
    countCompleted ((jsFinally body (completeEvent ev)) s).2.2 =
      if ev.present && ev.hasCompleted then 1 else 0 := by
  have hone : countCompleted [Ev.completedCall] = 1 := rfl
  rw [jsFinally_completeEvent]
  cases h : ev.present && ev.hasCompleted <;>
    simp [h, countCompleted_append, countCompleted_eq_zero_of_all _ (hb s), hone]

theorem handler_trace_ends_completed (body : M Unit) (ev : OfficeEvent)
    (hp : ev.present = true) (hc : ev.hasCompleted = true) (s : St) :
    ∃ t, ((jsFinally body (completeEvent ev)) s).2.2 = t ++ [Ev.completedCall] := by
  rw [jsFinally_completeEvent, hp, hc]
  exact ⟨(body s).2.2, by simp⟩

theorem handler_result_ok (body : M Unit) (hb : okUnit body) (ev : OfficeEvent) (s : St) :
    ((jsFinally body (completeEvent ev)) s).1 = Except.ok () := by
  rw [jsFinally_completeEvent]
  exact hb s

theorem handler_trace_vs_null (body : M Unit) (ev : OfficeEvent) (s : St) :
    ((jsFinally body (completeEvent ev)) s).2.2 =
      ((jsFinally body (completeEvent nullEvent)) s).2.2 ++
        (if ev.present && ev.hasCompleted then [Ev.completedCall] else []) := by
  rw [jsFinally_completeEvent, jsFinally_completeEvent]
  simp [nullEvent]

theorem okUnit_fillHandler (sc : Scenario) (color : String) :
    okUnit (jsCatch (excelRun (Commands.fillBody sc color)) (Commands.fillCatch sc)) :=
  okUnit_jsCatch _ _ (fun e => okUnit_fillCatch sc e)

theorem okUnit_clearHandler (sc : Scenario) :
    okUnit (jsCatch (excelRun (Commands.clearBody sc)) (Commands.clearCatch sc)) :=
  okUnit_jsCatch _ _ (fun e => okUnit_clearCatch sc e)

/-- A witness scenario: single 2x2 region selected, no host errors, dialog
API available. -/
def scWitness : Scenario :=
  { selection := [{ top := 0, left := 0, bottom := 1, right := 1 }],
    applyColorErr := none, clearErr := none, patternErr := none,
    flushErrs := [], dialogAvailable := true }

/-! ### Claim theorems -/

/-- C1: for each of the four actions (fillYellow, fillOrange, fillGray,
clearFill), invoking the handler with an event that carries a completion
callback results in exactly one call to the event's completion signal, on
every exit path (any injected error scenario). -/
theorem c1_handlers_signal_completion_exactly_once (sc : Scenario) (ev : OfficeEvent)
    (sheet : Cell → Fill) (hp : ev.present = true) (hc : ev.hasCompleted = true) :
    countCompleted ((Commands.fillYellow sc ev) (initSt sheet)).2.2 = 1 ∧
    countCompleted ((Commands.fillOrange sc ev) (initSt sheet)).2.2 = 1 ∧
    countCompleted ((Commands.fillGray sc ev) (initSt sheet)).2.2 = 1 ∧
    countCompleted ((Commands.clearFill sc ev) (initSt sheet)).2.2 = 1 := by
  refine ⟨?_, ?_, ?_, ?_⟩
  · exact countCompleted_handler _ (emitsOnly_fillHandlerBody sc Commands.COLORS.YELLOW)
      ev hp hc _
  · exact countCompleted_handler _ (emitsOnly_fillHandlerBody sc Commands.COLORS.ORANGE)
      ev hp hc _
  · exact countCompleted_handler _ (emitsOnly_fillHandlerBody sc Commands.COLORS.GRAY)
      ev hp hc _
  · exact countCompleted_handler _ (emitsOnly_clearHandlerBody sc) ev hp hc _

/-- Witness for C1: in the no-error scenario with a well-formed event,
each of the four handlers signals completion exactly once. -/
theorem c1_witness :
    countCompleted ((Commands.fillYellow scWitness goodEvent) (initSt emptySheet)).2.2 = 1 ∧
    countCompleted ((Commands.fillOrange scWitness goodEvent) (initSt emptySheet)).2.2 = 1 ∧
    countCompleted ((Commands.fillGray scWitness goodEvent) (initSt emptySheet)).2.2 = 1 ∧
    countCompleted ((Commands.clearFill scWitness goodEvent) (initSt emptySheet)).2.2 = 1 :=
  c1_handlers_signal_completion_exactly_once scWitness goodEvent emptySheet rfl rfl

/-- C7: every handler calls the event's completion signal before
returning control to the host, on every path: when the event carries a
completion callback, the invocation's trace ends with the completion
call (it is the last observable action of the handler task). -/
theorem c7_completion_called_before_return (sc : Scenario) (ev : OfficeEvent)
    (sheet : Cell → Fill) (hp : ev.present = true) (hc : ev.hasCompleted = true) :
    (∃ t, ((Commands.fillYellow sc ev) (initSt sheet)).2.2 = t ++ [Ev.completedCall]) ∧
    (∃ t, ((Commands.fillOrange sc ev) (initSt sheet)).2.2 = t ++ [Ev.completedCall]) ∧
    (∃ t, ((Commands.fillGray sc ev) (initSt sheet)).2.2 = t ++ [Ev.completedCall]) ∧
    (∃ t, ((Commands.clearFill sc ev) (initSt sheet)).2.2 = t ++ [Ev.completedCall]) := by
  refine ⟨?_, ?_, ?_, ?_⟩ <;>
    exact handler_trace_ends_completed _ ev hp hc _

/-- Witness for C7: in the no-error scenario with a well-formed event,
each handler's trace ends with the completion call. -/
theorem c7_witness :
    (∃ t, ((Commands.fillYellow scWitness goodEvent) (initSt emptySheet)).2.2 =
      t ++ [Ev.completedCall]) ∧
    (∃ t, ((Commands.fillOrange scWitness goodEvent) (initSt emptySheet)).2.2 =
      t ++ [Ev.completedCall]) ∧
    (∃ t, ((Commands.fillGray scWitness goodEvent) (initSt emptySheet)).2.2 =
      t ++ [Ev.completedCall]) ∧
    (∃ t, ((Commands.clearFill scWitness goodEvent) (initSt emptySheet)).2.2 =
      t ++ [Ev.completedCall]) :=
  c7_completion_called_before_return scWitness goodEvent emptySheet rfl rfl

/-- C8: for every input event and every injected error scenario, no error
propagates past the handler boundary: each of the four handlers finishes
with `Except.ok ()` (nothing is thrown or rejected toward the host). -/
theorem c8_no_error_escapes_handler (sc : Scenario) (ev : OfficeEvent)
    (sheet : Cell → Fill) :
    ((Commands.fillYellow sc ev) (initSt sheet)).1 = Except.ok () ∧
    ((Commands.fillOrange sc ev) (initSt sheet)).1 = Except.ok () ∧
    ((Commands.fillGray sc ev) (initSt sheet)).1 = Except.ok () ∧
    ((Commands.clearFill sc ev) (initSt sheet)).1 = Except.ok () := by
  refine ⟨?_, ?_, ?_, ?_⟩
  · exact handler_result_ok _ (okUnit_fillHandler sc Commands.COLORS.YELLOW) ev _
  · exact handler_result_ok _ (okUnit_fillHandler sc Commands.COLORS.ORANGE) ev _
  · exact handler_result_ok _ (okUnit_fillHandler sc Commands.COLORS.GRAY) ev _
  · exact handler_result_ok _ (okUnit_clearHandler sc) ev _

/-- C9: with an event argument that is null/undefined or lacks a truthy
`completed` property, the handlers still run the mutation logic to
completion without raising, and attempt no completion call; the completion
signal is invoked exactly when both `event` and `event.completed` are
truthy.  (Stated for `fillCellsWithColor` with an arbitrary color and for
`clearCellsFill`.) -/
theorem c9_completion_guarded_by_event_truthiness (sc : Scenario) (color : String)
    (ev : OfficeEvent) (sheet : Cell → Fill) :
    ((Commands.fillCellsWithColor sc color ev) (initSt sheet)).1 = Except.ok () ∧
    countCompleted ((Commands.fillCellsWithColor sc color ev) (initSt sheet)).2.2 =
      (if ev.present && ev.hasCompleted then 1 else 0) ∧
    ((Commands.fillCellsWithColor sc color ev) (initSt sheet)).2.2 =
      ((Commands.fillCellsWithColor sc color nullEvent) (initSt sheet)).2.2 ++
        (if ev.present && ev.hasCompleted then [Ev.completedCall] else []) ∧
    ((Commands.clearCellsFill sc ev) (initSt sheet)).1 = Except.ok () ∧
    countCompleted ((Commands.clearCellsFill sc ev) (initSt sheet)).2.2 =
      (if ev.present && ev.hasCompleted then 1 else 0) ∧
    ((Commands.clearCellsFill sc ev) (initSt sheet)).2.2 =
      ((Commands.clearCellsFill sc nullEvent) (initSt sheet)).2.2 ++
        (if ev.present && ev.hasCompleted then [Ev.completedCall] else []) := by
  refine ⟨?_, ?_, ?_, ?_, ?_, ?_⟩
  · exact handler_result_ok _ (okUnit_fillHandler sc color) ev _
  · exact countCompleted_handler_ite _ (emitsOnly_fillHandlerBody sc color) ev _
  · exact handler_trace_vs_null _ ev _
  · exact handler_result_ok _ (okUnit_clearHandler sc) ev _
  · exact countCompleted_handler_ite _ (emitsOnly_clearHandlerBody sc) ev _
  · exact handler_trace_vs_null _ ev _

/-! ### Success-path computations for the fill handlers -/

theorem fill_handler_success (sc : Scenario) (color : String) (ev : OfficeEvent)
    (sheet : Cell → Fill)
    (hA : sc.applyColorErr = none) (hF0 : flushErrAt sc.flushErrs 0 = none) :
    (Commands.fillCellsWithColor sc color ev) (initSt sheet) =
      (Except.ok (),
        { sheet := applyMuts [Mut.setColor sc.selection color] sheet,
          pending := [], flushIdx := 1 },
        [Ev.mutSetColor color, Ev.flush,
          Ev.consoleLog ("Successfully filled cells with color: " ++ color)] ++
          (if ev.present && ev.hasCompleted then [Ev.completedCall] else [])) := by
  have hF0' : flushErrAt sc.flushErrs
      ({ initSt sheet with pending := ([] : List Mut) }).flushIdx = none := hF0
  have hbody := fillBody_ok sc color { initSt sheet with pending := [] } hA hF0'
  simp only [Commands.fillCellsWithColor, jsFinally_completeEvent, jsCatch, excelRun]
  rw [hbody]
  simp [initSt, applyMuts]

theorem multi_fill_handler_success (sc : Scenario) (color : String) (ev : OfficeEvent)
    (sheet : Cell → Fill)
    (hA : sc.applyColorErr = none) (hF0 : flushErrAt sc.flushErrs 0 = none)
    (hF1 : flushErrAt sc.flushErrs 1 = none) (hF2 : flushErrAt sc.flushErrs 2 = none) :
    (MultiArea.fillCellsWithColor sc color ev) (initSt sheet) =
      (Except.ok (),
        { sheet := applyMuts (sc.selection.map (fun r => Mut.setColor [r] color)) sheet,
          pending := [], flushIdx := 3 },
        Ev.flush :: Ev.flush :: (sc.selection.map (fun _ => Ev.mutSetColor color) ++
          [Ev.flush, Ev.consoleLog ("Successfully filled " ++ toString sc.selection.length ++
            " range(s) with color: " ++ color)]) ++
          (if ev.present && ev.hasCompleted then [Ev.completedCall] else [])) := by
  have hF0' : flushErrAt sc.flushErrs
      ({ initSt sheet with pending := ([] : List Mut) }).flushIdx = none := hF0
  have hF1' : flushErrAt sc.flushErrs
      (({ initSt sheet with pending := ([] : List Mut) }).flushIdx + 1) = none := hF1
  have hF2' : flushErrAt sc.flushErrs
      (({ initSt sheet with pending := ([] : List Mut) }).flushIdx + 2) = none := hF2
  have hbody := multiFillBody_ok sc color { initSt sheet with pending := [] } hA hF0' hF1' hF2'
  simp only [MultiArea.fillCellsWithColor, jsFinally_completeEvent, jsCatch, excelRun]
  rw [hbody]
  simp [initSt, applyMuts]

/-- C2: for every selection of disjoint regions and every fill color, when
the fill succeeds (no apply error, flush round trips succeed), every cell
inside any region of the selection ends with fill color `color` — both in
the whole-selection-handle variant (src/commands.js) and in the
area-enumerating variant (src/unnamed/part_000). -/
theorem c2_fill_colors_every_region (sc : Scenario) (color : String) (ev : OfficeEvent)
    (sheet : Cell → Fill) (cell : Cell)
    (hA : sc.applyColorErr = none)
    (hF0 : flushErrAt sc.flushErrs 0 = none)
    (hF1 : flushErrAt sc.flushErrs 1 = none)
    (hF2 : flushErrAt sc.flushErrs 2 = none)
    (hcell : inSelection sc.selection cell = true) :
    (((Commands.fillCellsWithColor sc color ev) (initSt sheet)).2.1).sheet cell =
      Fill.color color ∧
    (((MultiArea.fillCellsWithColor sc color ev) (initSt sheet)).2.1).sheet cell =
      Fill.color color := by
  constructor
  · rw [fill_handler_success sc color ev sheet hA hF0]
    simp [applyMuts, applyMut, hcell]
  · rw [multi_fill_handler_success sc color ev sheet hA hF0 hF1 hF2]
    exact applyMuts_setColor_mem color sc.selection sheet cell hcell

/-- Witness for C2: a cell of the selected 2x2 region is yellow after a
successful fillYellow in both variants. -/
theorem c2_witness :
    (((Commands.fillCellsWithColor scWitness "#FFFF00" goodEvent)
        (initSt emptySheet)).2.1).sheet { row := 0, col := 1 } = Fill.color "#FFFF00" ∧
    (((MultiArea.fillCellsWithColor scWitness "#FFFF00" goodEvent)
        (initSt emptySheet)).2.1).sheet { row := 0, col := 1 } = Fill.color "#FFFF00" :=
  c2_fill_colors_every_region scWitness "#FFFF00" goodEvent emptySheet
    { row := 0, col := 1 } rfl rfl rfl rfl (by decide)

/-- C3: on the non-error fill path the executor issues exactly one
mutation statement on the whole selection handle and exactly one flush
round trip (src/commands.js); in particular this holds for the fillYellow
command. -/
theorem c3_one_mutation_one_flush (sc : Scenario) (color : String) (ev : OfficeEvent)
    (sheet : Cell → Fill)
    (hA : sc.applyColorErr = none) (hF0 : flushErrAt sc.flushErrs 0 = none) :
    countMutations ((Commands.fillCellsWithColor sc color ev) (initSt sheet)).2.2 = 1 ∧
    countFlushes ((Commands.fillCellsWithColor sc color ev) (initSt sheet)).2.2 = 1 ∧
    countMutations ((Commands.fillYellow sc ev) (initSt sheet)).2.2 = 1 ∧
    countFlushes ((Commands.fillYellow sc ev) (initSt sheet)).2.2 = 1 := by
  have hy : Commands.fillYellow sc ev = Commands.fillCellsWithColor sc "#FFFF00" ev := rfl
  rw [hy, fill_handler_success sc color ev sheet hA hF0,
    fill_handler_success sc "#FFFF00" ev sheet hA hF0]
  cases h : ev.present && ev.hasCompleted <;>
    simp [h, countMutations, countFlushes, Ev.isMutation, Ev.isFlush]

/-- Witness for C3: single-region selection, fillYellow, no errors -
exactly one mutation and one flush. -/
theorem c3_witness :
    countMutations ((Commands.fillCellsWithColor scWitness "#FFFF00" goodEvent)
      (initSt emptySheet)).2.2 = 1 ∧
    countFlushes ((Commands.fillCellsWithColor scWitness "#FFFF00" goodEvent)
      (initSt emptySheet)).2.2 = 1 ∧
    countMutations ((Commands.fillYellow scWitness goodEvent) (initSt emptySheet)).2.2 = 1 ∧
    countFlushes ((Commands.fillYellow scWitness goodEvent) (initSt emptySheet)).2.2 = 1 :=
  c3_one_mutation_one_flush scWitness "#FFFF00" goodEvent emptySheet rfl rfl

/-! ### Clear-path policy lemmas (C4, C5) -/

theorem handler_value_body_ok (bodyM : M Unit) (catchF : String → M Unit)
    (ev : OfficeEvent) (s s1 : St) (t1 : List Ev)
    (hB : bodyM { s with pending := [] } = (Except.ok (), s1, t1)) :
    (jsFinally (jsCatch (excelRun bodyM) catchF) (completeEvent ev)) s =
      (Except.ok (), s1,
        t1 ++ (if ev.present && ev.hasCompleted then [Ev.completedCall] else [])) := by
  simp only [jsFinally_completeEvent, jsCatch, excelRun]
  rw [hB]

theorem handler_value_body_err (bodyM : M Unit) (catchF : String → M Unit)
    (ev : OfficeEvent) (s s1 s2 : St) (t1 t2 : List Ev) (e : String)
    (hB : bodyM { s with pending := [] } = (Except.error e, s1, t1))
    (hC : catchF e s1 = (Except.ok (), s2, t2)) :
    (jsFinally (jsCatch (excelRun bodyM) catchF) (completeEvent ev)) s =
      (Except.ok (), s2,
        (t1 ++ t2) ++ (if ev.present && ev.hasCompleted then [Ev.completedCall] else [])) := by
  simp only [jsFinally_completeEvent, jsCatch, excelRun]
  rw [hB]
  simp [hC]

theorem count_filter_zero_of_all (p : Ev → Bool) (tr : List Ev)
    (h : tr.all (fun e => !p e) = true) : (tr.filter p).length = 0 := by
  rw [List.length_eq_zero, List.filter_eq_nil_iff]
  intro a ha
  have := List.all_eq_true.mp h a ha
  simp at this
  simp [this]

theorem noRetry_append_free (a b : List Ev)
    (ha : a.all (fun e => !Ev.isFallbackAttempt e) = true) :
    noRetryAfterFallback (a ++ b) = noRetryAfterFallback b := by
  induction a with
  | nil => simp
  | cons x rest ih =>
    rw [List.all_cons, Bool.and_eq_true] at ha
    have hx : Ev.isFallbackAttempt x = false := by
      rcases ha with ⟨hx, _⟩
      cases h : Ev.isFallbackAttempt x
      · rfl
      · rw [h] at hx; simp at hx
    rw [List.cons_append, noRetryAfterFallback, if_neg (by simp [hx]), ih ha.2]

theorem noRetry_of_free (a : List Ev)
    (ha : a.all (fun e => !Ev.isFallbackAttempt e) = true) :
    noRetryAfterFallback a = true := by
  have := noRetry_append_free a [] ha
  rw [List.append_nil] at this
  rw [this]
  rfl

theorem noRetry_fallback_head (post : List Ev)
    (hpost : post.all (fun x => !Ev.isClearAttempt x && !Ev.isFallbackAttempt x) = true) :
    noRetryAfterFallback (Ev.mutSetPatternNone :: post) = true := by
  simp only [noRetryAfterFallback, Ev.isFallbackAttempt, if_true]
  exact hpost

theorem showNotification_all (b : Bool) (hd m : String) (q : Ev → Bool)
    (hq : q (Ev.consoleLog (hd ++ ": " ++ m)) = true) :
    (showNotification b hd m).all q = true := by
  cases b <;> simp [showNotification, hq]

theorem emitsOnly_clearBody_noFallback (sc : Scenario) :
    emitsOnly (fun e => !Ev.isFallbackAttempt e) (Commands.clearBody sc) := by
  unfold Commands.clearBody
  apply emitsOnly_bind _ _ _ (emitsOnly_pure _ _)
  intro range
  apply emitsOnly_bind _ _ _ (emitsOnly_pure _ _)
  intro a
  apply emitsOnly_bind _ _ _ (emitsOnly_pure _ _)
  intro b
  apply emitsOnly_bind _ _ _ (emitsOnly_sync _ _ rfl)
  intro c
  apply emitsOnly_bind _ _ _ (emitsOnly_clearFillOp _ _ _ rfl)
  intro d
  apply emitsOnly_bind _ _ _ (emitsOnly_sync _ _ rfl)
  intro e
  exact emitsOnly_consoleLog _ _ rfl

theorem clearCatch_shape (sc : Scenario) (e : String) (s : St) :
    ∃ s2 pre post,
      Commands.clearCatch sc e s = (Except.ok (), s2, pre ++ Ev.mutSetPatternNone :: post) ∧
      pre.all (fun x => !Ev.isFallbackAttempt x) = true ∧
      post.all (fun x => !Ev.isClearAttempt x && !Ev.isFallbackAttempt x) = true := by
  cases hP : sc.patternErr with
  | some fm =>
    have hFB := fallbackBody_pattern_err sc { s with pending := [] } fm hP
    refine ⟨{ s with pending := [] }, [Ev.consoleError ("Error clearing fill: " ++ e)],
      Ev.consoleError ("Fallback method also failed: " ++ fm) ::
        Ev.notify "Error" ("Failed to clear fill: " ++ e) ::
        showNotification sc.dialogAvailable "Error" ("Failed to clear fill: " ++ e),
      ?_, rfl, ?_⟩
    · rw [clearCatch_fb_err sc e fm s _ _ hFB]
      simp
    · cases hD : sc.dialogAvailable <;>
        simp [showNotification, hD, Ev.isClearAttempt, Ev.isFallbackAttempt]
  | none =>
    cases hF : flushErrAt sc.flushErrs s.flushIdx with
    | some fm =>
      have hFB := fallbackBody_flush_err sc { s with pending := [] } fm hP hF
      refine ⟨{ sheet := s.sheet, pending := [], flushIdx := s.flushIdx + 1 },
        [Ev.consoleError ("Error clearing fill: " ++ e)],
        Ev.flush ::
          Ev.consoleError ("Fallback method also failed: " ++ fm) ::
          Ev.notify "Error" ("Failed to clear fill: " ++ e) ::
          showNotification sc.dialogAvailable "Error" ("Failed to clear fill: " ++ e),
        ?_, rfl, ?_⟩
      · rw [clearCatch_fb_err sc e fm s _ _ hFB]
        simp
      · cases hD : sc.dialogAvailable <;>
          simp [showNotification, hD, Ev.isClearAttempt, Ev.isFallbackAttempt]
    | none =>
      have hFB := fallbackBody_ok sc { s with pending := [] } hP hF
      refine ⟨St.mk (applyMuts ([] ++ [Mut.setPatternNone sc.selection]) s.sheet)
          [] (s.flushIdx + 1),
        [Ev.consoleError ("Error clearing fill: " ++ e)],
        [Ev.flush, Ev.consoleLog "Cleared fill using pattern method"], ?_, rfl, rfl⟩
      rw [clearCatch_fb_ok sc e s _ _ hFB]
      simp

theorem all_and_right (a : List Ev) (p q : Ev → Bool)
    (h : a.all (fun x => p x && q x) = true) : a.all q = true := by
  rw [List.all_eq_true] at h ⊢
  intro x hx
  have := h x hx
  simp only [Bool.and_eq_true] at this
  exact this.2

/-- C4: in the clear-fill handler, a fallback pattern-based clear attempt
occurs at most once, occurs exactly once precisely when the primary clear
operation raised an error, and after any fallback attempt no further
clear or fallback attempt is made. -/
theorem c4_fallback_only_after_primary_error (sc : Scenario) (ev : OfficeEvent)
    (sheet : Cell → Fill) :
    countFallbacks ((Commands.clearCellsFill sc ev) (initSt sheet)).2.2 ≤ 1 ∧
    (countFallbacks ((Commands.clearCellsFill sc ev) (initSt sheet)).2.2 = 1 ↔
      (Commands.clearBody sc (initSt sheet)).1 ≠ Except.ok ()) ∧
    noRetryAfterFallback ((Commands.clearCellsFill sc ev) (initSt sheet)).2.2 = true := by
  rcases hB : Commands.clearBody sc (initSt sheet) with ⟨r, s1, t1⟩
  have hBfree : t1.all (fun e => !Ev.isFallbackAttempt e) = true := by
    have h := emitsOnly_clearBody_noFallback sc (initSt sheet)
    rw [hB] at h
    exact h
  have h1 : (t1.filter Ev.isFallbackAttempt).length = 0 :=
    count_filter_zero_of_all _ _ hBfree
  cases r with
  | ok a =>
    have hv : (Commands.clearCellsFill sc ev) (initSt sheet) =
        (Except.ok (), s1,
          t1 ++ (if ev.present && ev.hasCompleted then [Ev.completedCall] else [])) :=
      handler_value_body_ok (Commands.clearBody sc) (Commands.clearCatch sc)
        ev (initSt sheet) s1 t1 hB
    rw [hv]
    cases hcond : ev.present && ev.hasCompleted <;>
      simp [countFallbacks, List.filter_append, h1, hcond, Ev.isFallbackAttempt,
        noRetry_append_free _ _ hBfree, noRetry_of_free _ hBfree, noRetryAfterFallback]
  | error e =>
    obtain ⟨s2, pre, post, hcat, hpre, hpost⟩ := clearCatch_shape sc e s1
    have h2 : (pre.filter Ev.isFallbackAttempt).length = 0 :=
      count_filter_zero_of_all _ _ hpre
    have hpostFree : post.all (fun x => !Ev.isFallbackAttempt x) = true :=
      all_and_right post _ _ hpost
    have h3 : (post.filter Ev.isFallbackAttempt).length = 0 :=
      count_filter_zero_of_all _ _ hpostFree
    have hv : (Commands.clearCellsFill sc ev) (initSt sheet) =
        (Except.ok (), s2,
          (t1 ++ (pre ++ Ev.mutSetPatternNone :: post)) ++
            (if ev.present && ev.hasCompleted then [Ev.completedCall] else [])) :=
      handler_value_body_err (Commands.clearBody sc) (Commands.clearCatch sc)
        ev (initSt sheet) s1 s2 t1 _ e hB hcat
    rw [hv]
    refine ⟨?_, ?_, ?_⟩
    · cases hcond : ev.present && ev.hasCompleted <;>
        simp [countFallbacks, List.filter_append, h1, h2, h3, hcond, Ev.isFallbackAttempt]
    · cases hcond : ev.present && ev.hasCompleted <;>
        simp [countFallbacks, List.filter_append, h1, h2, h3, hcond, Ev.isFallbackAttempt]
    · have htail : ∀ tail : List Ev,
          tail.all (fun x => !Ev.isClearAttempt x && !Ev.isFallbackAttempt x) = true →
          noRetryAfterFallback ((t1 ++ (pre ++ Ev.mutSetPatternNone :: post)) ++ tail) =
            true := by
        intro tail htl
        rw [List.append_assoc, List.append_assoc,
          noRetry_append_free _ _ hBfree, noRetry_append_free _ _ hpre]
        have : Ev.mutSetPatternNone :: post ++ tail =
            Ev.mutSetPatternNone :: (post ++ tail) := rfl
        rw [this]
        apply noRetry_fallback_head
        rw [List.all_append]
        simp [hpost, htl]
      cases hcond : ev.present && ev.hasCompleted
      · simpa using htail [] rfl
      · simpa using htail [Ev.completedCall] rfl

/-- C5: if both the primary clear operation and the fallback pattern-based
clear raise errors, the notification channel receives a message carrying
the primary error's text (prefixed with "Failed to clear fill: "), and the
completion signal is still called exactly once. -/
theorem c5_both_clear_failures_notify_primary (sc : Scenario) (ev : OfficeEvent)
    (sheet : Cell → Fill) (pm : String)
    (hp : ev.present = true) (hc : ev.hasCompleted = true)
    (hPrim : (Commands.clearBody sc (initSt sheet)).1 = Except.error pm)
    (hFall : ∃ fm, (Commands.fallbackBody sc
        { (Commands.clearBody sc (initSt sheet)).2.1 with pending := [] }).1 =
      Except.error fm) :
    Ev.notify "Error" ("Failed to clear fill: " ++ pm) ∈
      ((Commands.clearCellsFill sc ev) (initSt sheet)).2.2 ∧
    countCompleted ((Commands.clearCellsFill sc ev) (initSt sheet)).2.2 = 1 := by
  obtain ⟨fm, hFall⟩ := hFall
  rcases hB : Commands.clearBody sc (initSt sheet) with ⟨r, s1, t1⟩
  rw [hB] at hPrim hFall
  simp only at hPrim hFall
  subst hPrim
  rcases hFB : Commands.fallbackBody sc { s1 with pending := [] } with ⟨r2, s2b, t2b⟩
  rw [hFB] at hFall
  simp only at hFall
  subst hFall
  have hcat := clearCatch_fb_err sc pm fm s1 s2b t2b hFB
  have hv : (Commands.clearCellsFill sc ev) (initSt sheet) =
      (Except.ok (), s2b,
        (t1 ++ (Ev.consoleError ("Error clearing fill: " ++ pm) ::
          (t2b ++ Ev.consoleError ("Fallback method also failed: " ++ fm) ::
            Ev.notify "Error" ("Failed to clear fill: " ++ pm) ::
            showNotification sc.dialogAvailable "Error"
              ("Failed to clear fill: " ++ pm)))) ++
          (if ev.present && ev.hasCompleted then [Ev.completedCall] else [])) :=
    handler_value_body_err (Commands.clearBody sc) (Commands.clearCatch sc)
      ev (initSt sheet) s1 s2b t1 _ pm hB hcat
  constructor
  · rw [hv]
    simp
  · exact countCompleted_handler _ (emitsOnly_clearHandlerBody sc) ev hp hc _

/-- A witness scenario for C5: both the primary `clear()` and the fallback
pattern set raise. -/
def scBothClearFail : Scenario :=
  { selection := [{ top := 0, left := 0, bottom := 0, right := 0 }],
    applyColorErr := none, clearErr := some "clear rejected",
    patternErr := some "pattern rejected", flushErrs := [], dialogAvailable := true }

/-- Witness for C5: with both clear paths failing, the notification
channel receives the primary error's text and completion is signaled
once. -/
theorem c5_witness :
    Ev.notify "Error" ("Failed to clear fill: " ++ "clear rejected") ∈
      ((Commands.clearCellsFill scBothClearFail goodEvent) (initSt emptySheet)).2.2 ∧
    countCompleted
      ((Commands.clearCellsFill scBothClearFail goodEvent) (initSt emptySheet)).2.2 = 1 :=
  c5_both_clear_failures_notify_primary scBothClearFail goodEvent emptySheet
    "clear rejected" rfl rfl rfl ⟨"pattern rejected", rfl⟩

/-- A scenario in which setting the fill color raises an Error whose
message is empty (falsy in JS). -/
def scEmptyMsgErr : Scenario :=
  { selection := [{ top := 0, left := 0, bottom := 0, right := 0 }],
    applyColorErr := some "", clearErr := none, patternErr := none,
    flushErrs := [], dialogAvailable := true }

/-- Counterexample for C6 as stated: an error raised during the mutation
whose message is empty is caught and logged, but nothing is forwarded to
the notification channel (the code guards the forwarding with
`if (error && error.message)`). -/
theorem c6_counterexample :
    (Commands.fillBody scEmptyMsgErr "#FFFF00" (initSt emptySheet)).1 =
      Except.error "" ∧
    Ev.consoleError ("Error filling cells: " ++ "") ∈
      ((Commands.fillCellsWithColor scEmptyMsgErr "#FFFF00" goodEvent)
        (initSt emptySheet)).2.2 ∧
    ((Commands.fillCellsWithColor scEmptyMsgErr "#FFFF00" goodEvent)
        (initSt emptySheet)).2.2.all (fun e => !Ev.isNotify e) = true := by
  refine ⟨rfl, ?_, ?_⟩ <;> decide

theorem fillCatch_trace_shape (sc : Scenario) (pm : String) (s : St) :
    ∃ ctr, Commands.fillCatch sc pm s = (Except.ok (), s, ctr) ∧
      ctr.all (fun e => !Ev.isMutation e && !Ev.isFlush e) = true ∧
      Ev.consoleError ("Error filling cells: " ++ pm) ∈ ctr ∧
      (pm ≠ "" → Ev.notify "Error" ("Failed to fill cells: " ++ pm) ∈ ctr) := by
  by_cases he : pm = ""
  · subst he
    exact ⟨_, fillCatch_empty sc s, rfl, by simp, by simp⟩
  · refine ⟨_, fillCatch_nonempty sc pm s he, ?_, by simp, fun _ => by simp⟩
    simp only [List.all_cons, Bool.and_eq_true]
    refine ⟨⟨rfl, rfl⟩, ⟨rfl, rfl⟩, ?_⟩
    exact showNotification_all _ _ _ _ rfl

theorem all_and_left (a : List Ev) (p q : Ev → Bool)
    (h : a.all (fun x => p x && q x) = true) : a.all p = true := by
  rw [List.all_eq_true] at h ⊢
  intro x hx
  have := h x hx
  simp only [Bool.and_eq_true] at this
  exact this.1

/-- C6 (amended): on the fill-color path every raised error (apply or
flush) is caught, logged, and — provided its message is non-empty (truthy
in JS) — its message is forwarded to the notification channel; completion
is then signaled exactly once and no further mutation or flush is
attempted (at most the one already issued). -/
theorem c6_fill_error_policy (sc : Scenario) (color : String) (ev : OfficeEvent)
    (sheet : Cell → Fill) (pm : String)
    (hp : ev.present = true) (hc : ev.hasCompleted = true)
    (hPrim : (Commands.fillBody sc color (initSt sheet)).1 = Except.error pm) :
    ((Commands.fillCellsWithColor sc color ev) (initSt sheet)).1 = Except.ok () ∧
    Ev.consoleError ("Error filling cells: " ++ pm) ∈
      ((Commands.fillCellsWithColor sc color ev) (initSt sheet)).2.2 ∧
    (pm ≠ "" → Ev.notify "Error" ("Failed to fill cells: " ++ pm) ∈
      ((Commands.fillCellsWithColor sc color ev) (initSt sheet)).2.2) ∧
    countCompleted ((Commands.fillCellsWithColor sc color ev) (initSt sheet)).2.2 = 1 ∧
    countMutations ((Commands.fillCellsWithColor sc color ev) (initSt sheet)).2.2 ≤ 1 ∧
    countFlushes ((Commands.fillCellsWithColor sc color ev) (initSt sheet)).2.2 ≤ 1 := by
  have hok : ((Commands.fillCellsWithColor sc color ev) (initSt sheet)).1 =
      Except.ok () := handler_result_ok _ (okUnit_fillHandler sc color) ev _
  have hcomp : countCompleted
      ((Commands.fillCellsWithColor sc color ev) (initSt sheet)).2.2 = 1 :=
    countCompleted_handler _ (emitsOnly_fillHandlerBody sc color) ev hp hc _
  cases hA : sc.applyColorErr with
  | some m =>
    have hB0 := fillBody_apply_err sc color (initSt sheet) m hA
    rw [hB0] at hPrim
    simp only [Except.error.injEq] at hPrim
    subst hPrim
    obtain ⟨ctr, hcat, hall, hmem, hnot⟩ :=
      fillCatch_trace_shape sc m { initSt sheet with pending := [] }
    have hmut0 : (ctr.filter Ev.isMutation).length = 0 :=
      count_filter_zero_of_all _ _ (all_and_left ctr _ _ hall)
    have hfl0 : (ctr.filter Ev.isFlush).length = 0 :=
      count_filter_zero_of_all _ _ (all_and_right ctr _ _ hall)
    have hv : (Commands.fillCellsWithColor sc color ev) (initSt sheet) =
        (Except.ok (), { initSt sheet with pending := [] },
          ([Ev.mutSetColor color] ++ ctr) ++
            (if ev.present && ev.hasCompleted then [Ev.completedCall] else [])) :=
      handler_value_body_err (Commands.fillBody sc color) (Commands.fillCatch sc)
        ev (initSt sheet) _ _ _ _ m
        (fillBody_apply_err sc color { initSt sheet with pending := [] } m hA) hcat
    refine ⟨hok, ?_, ?_, hcomp, ?_, ?_⟩
    · rw [hv]; simp [hmem]
    · intro hne; rw [hv]; simp [hnot hne]
    · rw [hv]
      simp [countMutations, List.filter_append, hmut0, Ev.isMutation, hp, hc]
    · rw [hv]
      simp [countFlushes, List.filter_append, hfl0, Ev.isFlush, hp, hc]
  | none =>
    cases hF : flushErrAt sc.flushErrs 0 with
    | some m =>
      have hB0 := fillBody_flush_err sc color (initSt sheet) m hA hF
      rw [hB0] at hPrim
      simp only [Except.error.injEq] at hPrim
      subst hPrim
      obtain ⟨ctr, hcat, hall, hmem, hnot⟩ :=
        fillCatch_trace_shape sc m
          { initSt sheet with pending := [], flushIdx := (initSt sheet).flushIdx + 1 }
      have hmut0 : (ctr.filter Ev.isMutation).length = 0 :=
        count_filter_zero_of_all _ _ (all_and_left ctr _ _ hall)
      have hfl0 : (ctr.filter Ev.isFlush).length = 0 :=
        count_filter_zero_of_all _ _ (all_and_right ctr _ _ hall)
      have hv : (Commands.fillCellsWithColor sc color ev) (initSt sheet) =
          (Except.ok (),
            { initSt sheet with pending := [], flushIdx := (initSt sheet).flushIdx + 1 },
            ([Ev.mutSetColor color, Ev.flush] ++ ctr) ++
              (if ev.present && ev.hasCompleted then [Ev.completedCall] else [])) :=
        handler_value_body_err (Commands.fillBody sc color) (Commands.fillCatch sc)
          ev (initSt sheet) _ _ _ _ m
          (fillBody_flush_err sc color { initSt sheet with pending := [] } m hA hF) hcat
      refine ⟨hok, ?_, ?_, hcomp, ?_, ?_⟩
      · rw [hv]; simp [hmem]
      · intro hne; rw [hv]; simp [hnot hne]
      · rw [hv]
        simp [countMutations, List.filter_append, hmut0, Ev.isMutation, hp, hc]
      · rw [hv]
        simp [countFlushes, List.filter_append, hfl0, Ev.isFlush, hp, hc]
    | none =>
      have hB0 := fillBody_ok sc color (initSt sheet) hA hF
      rw [hB0] at hPrim
      simp at hPrim

/-- A scenario in which setting the fill color raises an Error with a
non-empty message. -/
def scApplyFail : Scenario :=
  { selection := [{ top := 0, left := 0, bottom := 0, right := 0 }],
    applyColorErr := some "set color rejected", clearErr := none, patternErr := none,
    flushErrs := [], dialogAvailable := true }

/-- Witness for the amended C6: a non-empty-message apply error is caught,
logged, forwarded, completion signaled once, no retry. -/
theorem c6_witness :
    ((Commands.fillCellsWithColor scApplyFail "#FFFF00" goodEvent)
        (initSt emptySheet)).1 = Except.ok () ∧
    Ev.consoleError ("Error filling cells: " ++ "set color rejected") ∈
      ((Commands.fillCellsWithColor scApplyFail "#FFFF00" goodEvent)
        (initSt emptySheet)).2.2 ∧
    ("set color rejected" ≠ "" →
      Ev.notify "Error" ("Failed to fill cells: " ++ "set color rejected") ∈
        ((Commands.fillCellsWithColor scApplyFail "#FFFF00" goodEvent)
          (initSt emptySheet)).2.2) ∧
    countCompleted ((Commands.fillCellsWithColor scApplyFail "#FFFF00" goodEvent)
      (initSt emptySheet)).2.2 = 1 ∧
    countMutations ((Commands.fillCellsWithColor scApplyFail "#FFFF00" goodEvent)
      (initSt emptySheet)).2.2 ≤ 1 ∧
    countFlushes ((Commands.fillCellsWithColor scApplyFail "#FFFF00" goodEvent)
      (initSt emptySheet)).2.2 ≤ 1 :=
  c6_fill_error_policy scApplyFail "#FFFF00" goodEvent emptySheet
    "set color rejected" rfl rfl rfl

/-- C10: showNotification never displays a dialog: when the dialog API is
available it emits exactly one console log line of the form
header ++ ": " ++ message, when it is unavailable it emits nothing (so a
forwarded error notification is silently dropped), and in no case does
its output contain a dialog event. -/
theorem c10_shownotification_logs_only (b : Bool) (hd msg : String) :
    showNotification true hd msg = [Ev.consoleLog (hd ++ ": " ++ msg)] ∧
    showNotification false hd msg = [] ∧
    (showNotification b hd msg).all (fun e => !Ev.isDialog e) = true := by
  refine ⟨rfl, rfl, ?_⟩
  cases b <;> simp [showNotification, Ev.isDialog]
